import Mathlib

/-
Verification development for the dynamic-price-engine repository.

The pricing pipeline (src/app/config.py, demand_model.py, overrides.py,
price_engine.py) is embedded shallowly:

* calendar dates are day numbers (days since 0000-03-01, proleptic
  Gregorian), so that `weekday n = (n + 2) % 7` agrees with Python's
  `date.weekday()` (Monday = 0);
* datetimes are modelled at hour precision (day number plus hour);
* Python floats become exact rationals; `round(x, k)` becomes rounding of
  `x * 10^k` to the nearest integer (ties only differ from Python's
  bankers rounding at exact halves, which never occur in the claims);
* the profile store is a record of total lookup functions whose
  catch-all branch is the documented per-key default, mirroring
  `dict.get(key, default)`;
* `datetime.now()` is passed in explicitly as a `now` parameter;
* `ValueError` becomes `Except String`.
-/

-- Batteries marks the rational-number operations irreducible; restore
-- semireducibility locally so that concrete pipeline values can be
-- settled by kernel evaluation.
attribute [local semireducible] Rat.mul Rat.inv Rat.add Rat.sub
attribute [local semireducible] Rat.ofScientific

set_option maxRecDepth 200000

namespace PriceEngine

/-! ## Date arithmetic -/

/-- Day number of a proleptic-Gregorian civil date, counted from
0000-03-01 (March-based Hinnant formula, valid for years ≥ 1). -/
def dayOfCivil (y m d : ℕ) : ℕ :=
  let yp := if m ≤ 2 then y - 1 else y
  let mp := if m ≤ 2 then m + 9 else m - 3
  yp * 365 + yp / 4 - yp / 100 + yp / 400 + ((153 * mp + 2) / 5 + (d - 1))

/-- Weekday of a day number, Monday = 0 .. Sunday = 6, matching Python
`date.weekday()`. -/
def weekday (n : ℕ) : ℕ := (n + 2) % 7

/-- Civil date (year, month, day) of a day number (inverse of
`dayOfCivil`). -/
def civilOfDay (n : ℕ) : ℕ × ℕ × ℕ :=
  let doe := n % 146097
  let yoe := (doe - doe / 1460 + doe / 36524 - doe / 146096) / 365
  let y := yoe + (n / 146097) * 400
  let doy := doe - (365 * yoe + yoe / 4 - yoe / 100)
  let mp := (5 * doy + 2) / 153
  let d := doy - (153 * mp + 2) / 5 + 1
  let m := if mp < 10 then mp + 3 else mp - 9
  (if m ≤ 2 then y + 1 else y, m, d)

/-- Month (1–12) of a day number; mirrors Python `date.month`. -/
def monthOfDay (n : ℕ) : ℕ := (civilOfDay n).2.1

/-! ## config.py -/

inductive VehicleType where
  | scooter
  | standard_bike
  | premium_bike
  | super_premium
deriving DecidableEq

def VehicleType.value : VehicleType → String
  | .scooter => "scooter"
  | .standard_bike => "standard_bike"
  | .premium_bike => "premium_bike"
  | .super_premium => "super_premium"

def VEHICLE_TYPES : List VehicleType :=
  [.scooter, .standard_bike, .premium_bike, .super_premium]

/-- Mirrors Python `VehicleType(value)` enum lookup by value. -/
def parseVehicleType (s : String) : Option VehicleType :=
  VEHICLE_TYPES.find? (fun v => v.value == s)

def VEHICLE_BASE_RATES : VehicleType → ℚ
  | .scooter => 60
  | .standard_bike => 80
  | .premium_bike => 150
  | .super_premium => 250

def VEHICLE_DISPLAY_NAMES : VehicleType → String
  | .scooter => "Scooter (Activa, Jupiter)"
  | .standard_bike => "Standard Bike (Pulsar, FZ)"
  | .premium_bike => "Premium Bike (RE Classic, Dominar)"
  | .super_premium => "Super Premium (Himalayan, KTM 390)"

def PRICE_FLOOR_RATES : VehicleType → ℚ
  | .scooter => 40
  | .standard_bike => 50
  | .premium_bike => 100
  | .super_premium => 160

def PRICE_CEILING_RATES : VehicleType → ℚ
  | .scooter => 150
  | .standard_bike => 200
  | .premium_bike => 375
  | .super_premium => 625

def MIN_MULTIPLIER : ℚ := 70 / 100
def MAX_MULTIPLIER : ℚ := 2
def BASELINE_DEMAND : ℚ := 50 / 100

def DURATION_DISCOUNT_TIERS : List (ℕ × ℚ) :=
  [(24, 70 / 100), (8, 80 / 100), (4, 90 / 100)]

def MAX_OVERRIDE_FACTOR : ℚ := 2

def WEIGHT_DAY_TYPE : ℚ := 45 / 100
def WEIGHT_SEASON : ℚ := 30 / 100
def WEIGHT_TIME_SLOT : ℚ := 25 / 100

def LOW_CONFIDENCE_DAYS : ℤ := 90

/-- The INDIAN_HOLIDAYS dict from config.py as (day number, name) pairs.
The Python source lists the key date(2025, 10, 2) twice ("Gandhi
Jayanti", then "Dussehra"); as in the Python dict, only the surviving
entry "Dussehra" is kept. -/
def INDIAN_HOLIDAYS : List (ℕ × String) := [
  (dayOfCivil 2024 1 26, "Republic Day"),
  (dayOfCivil 2024 3 25, "Holi"),
  (dayOfCivil 2024 3 29, "Good Friday"),
  (dayOfCivil 2024 4 11, "Eid ul-Fitr"),
  (dayOfCivil 2024 4 14, "Ambedkar Jayanti"),
  (dayOfCivil 2024 4 17, "Ram Navami"),
  (dayOfCivil 2024 4 21, "Mahavir Jayanti"),
  (dayOfCivil 2024 5 23, "Buddha Purnima"),
  (dayOfCivil 2024 6 17, "Eid ul-Adha"),
  (dayOfCivil 2024 7 17, "Muharram"),
  (dayOfCivil 2024 8 15, "Independence Day"),
  (dayOfCivil 2024 8 19, "Raksha Bandhan"),
  (dayOfCivil 2024 8 26, "Janmashtami"),
  (dayOfCivil 2024 9 7, "Milad un-Nabi"),
  (dayOfCivil 2024 10 2, "Gandhi Jayanti"),
  (dayOfCivil 2024 10 12, "Dussehra"),
  (dayOfCivil 2024 10 31, "Halloween / Diwali Eve"),
  (dayOfCivil 2024 11 1, "Diwali"),
  (dayOfCivil 2024 11 2, "Diwali (Day 2)"),
  (dayOfCivil 2024 11 15, "Guru Nanak Jayanti"),
  (dayOfCivil 2024 12 25, "Christmas"),
  (dayOfCivil 2025 1 1, "New Year"),
  (dayOfCivil 2025 1 14, "Pongal / Makar Sankranti"),
  (dayOfCivil 2025 1 26, "Republic Day"),
  (dayOfCivil 2025 3 14, "Holi"),
  (dayOfCivil 2025 3 30, "Eid ul-Fitr"),
  (dayOfCivil 2025 4 6, "Ram Navami"),
  (dayOfCivil 2025 4 10, "Mahavir Jayanti"),
  (dayOfCivil 2025 4 14, "Ambedkar Jayanti"),
  (dayOfCivil 2025 4 18, "Good Friday"),
  (dayOfCivil 2025 5 12, "Buddha Purnima"),
  (dayOfCivil 2025 6 7, "Eid ul-Adha"),
  (dayOfCivil 2025 7 6, "Muharram"),
  (dayOfCivil 2025 8 9, "Raksha Bandhan"),
  (dayOfCivil 2025 8 15, "Independence Day / Janmashtami"),
  (dayOfCivil 2025 8 27, "Milad un-Nabi"),
  (dayOfCivil 2025 10 2, "Dussehra"),
  (dayOfCivil 2025 10 20, "Diwali"),
  (dayOfCivil 2025 10 21, "Diwali (Day 2)"),
  (dayOfCivil 2025 11 5, "Guru Nanak Jayanti"),
  (dayOfCivil 2025 12 25, "Christmas"),
  (dayOfCivil 2026 1 1, "New Year"),
  (dayOfCivil 2026 1 14, "Pongal / Makar Sankranti"),
  (dayOfCivil 2026 1 26, "Republic Day"),
  (dayOfCivil 2026 3 4, "Holi"),
  (dayOfCivil 2026 3 20, "Eid ul-Fitr"),
  (dayOfCivil 2026 3 26, "Ram Navami"),
  (dayOfCivil 2026 3 31, "Mahavir Jayanti"),
  (dayOfCivil 2026 4 3, "Good Friday"),
  (dayOfCivil 2026 4 14, "Ambedkar Jayanti"),
  (dayOfCivil 2026 5 1, "Buddha Purnima"),
  (dayOfCivil 2026 5 27, "Eid ul-Adha"),
  (dayOfCivil 2026 6 26, "Muharram"),
  (dayOfCivil 2026 7 29, "Raksha Bandhan"),
  (dayOfCivil 2026 8 14, "Janmashtami"),
  (dayOfCivil 2026 8 15, "Independence Day"),
  (dayOfCivil 2026 8 17, "Milad un-Nabi"),
  (dayOfCivil 2026 9 21, "Dussehra"),
  (dayOfCivil 2026 10 2, "Gandhi Jayanti"),
  (dayOfCivil 2026 10 9, "Diwali"),
  (dayOfCivil 2026 10 10, "Diwali (Day 2)"),
  (dayOfCivil 2026 10 25, "Guru Nanak Jayanti"),
  (dayOfCivil 2026 12 25, "Christmas")]

/-- Mirrors `d in INDIAN_HOLIDAYS`. -/
def isHoliday (n : ℕ) : Bool := INDIAN_HOLIDAYS.any (fun p => p.1 == n)

/-- Mirrors `INDIAN_HOLIDAYS.get(d)`. -/
def holidayName (n : ℕ) : Option String :=
  (INDIAN_HOLIDAYS.find? (fun p => p.1 == n)).map (fun p => p.2)

/-! ## demand_model.py -/

structure DemandZone where
  name : String
  color : String
  emoji : String
  description : String
deriving DecidableEq

def deadZone : DemandZone :=
  ⟨"Dead", "#3B82F6", "🔵", "Deep discount — near-zero demand"⟩
def lowZone : DemandZone :=
  ⟨"Low", "#22C55E", "🟢", "Below normal — discount pricing"⟩
def normalZone : DemandZone :=
  ⟨"Normal", "#9CA3AF", "⚪", "Baseline — standard pricing"⟩
def highZone : DemandZone :=
  ⟨"High", "#EAB308", "🟡", "Above normal — mild surge"⟩
def surgeZone : DemandZone :=
  ⟨"Surge", "#EF4444", "🔴", "Peak demand — full surge pricing"⟩

def DEMAND_ZONES : List DemandZone :=
  [deadZone, lowZone, normalZone, highZone, surgeZone]

/-- Mirrors `classify_demand_zone` (demand_model.py). -/
def classify_demand_zone (score : ℚ) : DemandZone :=
  if score < 15 / 100 then deadZone
  else if score < 40 / 100 then lowZone
  else if score < 60 / 100 then normalZone
  else if score < 80 / 100 then highZone
  else surgeZone

/-- Profile store: the three lookup tables `estimate_demand` consults,
as total functions whose catch-all case is the per-key default that
Python's `dict.get(key, default)` supplies. -/
structure Profiles where
  hourly : ℕ → ℚ
  monthly : ℕ → ℚ
  dayType : String → ℚ

/-- Hourly table of `DemandModel._fallback_profiles`, with the
`_get_hourly_score` default 0.3 for keys outside the table. -/
def fallbackHourly : ℕ → ℚ := fun h =>
  match h with
  | 0 => 2/100 | 1 => 1/100 | 2 => 1/100 | 3 => 1/100 | 4 => 2/100
  | 5 => 5/100 | 6 => 15/100 | 7 => 70/100 | 8 => 95/100 | 9 => 1
  | 10 => 65/100 | 11 => 50/100 | 12 => 40/100 | 13 => 35/100
  | 14 => 35/100 | 15 => 40/100 | 16 => 50/100 | 17 => 45/100
  | 18 => 35/100 | 19 => 25/100 | 20 => 15/100 | 21 => 8/100
  | 22 => 5/100 | 23 => 2/100
  | _ => 30/100

/-- Monthly table of `DemandModel._fallback_profiles`, with the
`_get_monthly_score` default 0.5 for keys outside the table. -/
def fallbackMonthly : ℕ → ℚ := fun m =>
  match m with
  | 1 => 55/100 | 2 => 50/100 | 3 => 70/100 | 4 => 65/100
  | 5 => 1 | 6 => 40/100 | 7 => 25/100 | 8 => 30/100
  | 9 => 35/100 | 10 => 88/100 | 11 => 85/100 | 12 => 60/100
  | _ => 50/100

/-- Day-type table of `DemandModel._fallback_profiles`, with the
`_get_day_type_score` default 0.35 for keys outside the table. -/
def fallbackDayType : String → ℚ := fun s =>
  if s = "long_weekend" then 1
  else if s = "holiday" then 90/100
  else if s = "bridge_strong" then 85/100
  else if s = "holiday_eve" then 70/100
  else if s = "saturday" then 80/100
  else if s = "sunday" then 65/100
  else if s = "friday" then 55/100
  else if s = "bridge_weak" then 45/100
  else if s = "regular_weekday" then 35/100
  else if s = "exam_weekday" then 18/100
  else 35/100

/-- The profile store the engine runs with when demand_profiles.json is
absent (as in this repository). -/
def fallbackProfiles : Profiles :=
  ⟨fallbackHourly, fallbackMonthly, fallbackDayType⟩

/-- Mirrors `DemandModel._is_long_weekend_day`: scan a ±3-day window for
a Mon/Fri/Tue/Thu holiday whose stretch contains the query date. -/
def is_long_weekend_day (n : ℕ) : Bool :=
  (List.range 7).any fun i =>
    let check := n + i - 3
    isHoliday check &&
      (let hw := weekday check
       (hw == 0 && (n == check - 2 || n == check - 1 || n == check)) ||
       (hw == 4 && (n == check || n == check + 1 || n == check + 2)) ||
       (hw == 1 && (n == check - 3 || n == check - 2 || n == check - 1 ||
                    n == check)) ||
       (hw == 3 && (n == check || n == check + 1 || n == check + 2 ||
                    n == check + 3)))

/-- Mirrors `DemandModel._is_strong_bridge`. -/
def is_strong_bridge (n : ℕ) : Bool :=
  (weekday n == 0 && isHoliday (n + 1)) ||
  (weekday n == 4 && isHoliday (n - 1))

/-- Mirrors `DemandModel._is_weak_bridge`: a Wednesday holiday within a
±2-day window, the date itself excluded. -/
def is_weak_bridge (n : ℕ) : Bool :=
  (List.range 5).any fun i =>
    let check := n + i - 2
    isHoliday check && weekday check == 2 && check != n

/-- Mirrors `DemandModel._classify_day`: the priority chain producing
the single day-type tag. -/
def classify_day (n : ℕ) : String :=
  if is_long_weekend_day n then "long_weekend"
  else if isHoliday n then "holiday"
  else if is_strong_bridge n then "bridge_strong"
  else if isHoliday (n + 1) then "holiday_eve"
  else if weekday n == 5 then "saturday"
  else if weekday n == 6 then "sunday"
  else if weekday n == 4 then "friday"
  else if is_weak_bridge n then "bridge_weak"
  else if (monthOfDay n == 3 || monthOfDay n == 4) && weekday n < 5 then
    "exam_weekday"
  else "regular_weekday"

/-- Rounding of `round(x, k)`: round `x * 10^k` to the nearest integer
(ties away from half only at exact halves, which the pipeline never
produces for the claims below). -/
def roundTo (k : ℕ) (x : ℚ) : ℚ := (round (x * 10 ^ k) : ℤ) / 10 ^ k

structure DemandResult where
  score : ℚ
  zone : DemandZone
  day_type : String
  day_type_score : ℚ
  season_score : ℚ
  time_slot_score : ℚ
  hour : ℕ
  month : ℕ
  weekday : ℕ
  is_holiday : Bool
  holiday_name : Option String
deriving DecidableEq

/-- The clamped weighted blend computed inside
`DemandModel.estimate_demand` before rounding. -/
def blendedScore (P : Profiles) (n hour : ℕ) : ℚ :=
  max 0 (min 1
    (WEIGHT_DAY_TYPE * P.dayType (classify_day n) +
     WEIGHT_SEASON * P.monthly (monthOfDay n) +
     WEIGHT_TIME_SLOT * P.hourly hour))

/-- Mirrors `DemandModel.estimate_demand` on a (day number, hour)
datetime. -/
def estimate_demand (P : Profiles) (n hour : ℕ) : DemandResult :=
  { score := roundTo 4 (blendedScore P n hour)
    zone := classify_demand_zone (blendedScore P n hour)
    day_type := classify_day n
    day_type_score := roundTo 4 (P.dayType (classify_day n))
    season_score := roundTo 4 (P.monthly (monthOfDay n))
    time_slot_score := roundTo 4 (P.hourly hour)
    hour := hour
    month := monthOfDay n
    weekday := weekday n
    is_holiday := isHoliday n
    holiday_name := holidayName n }

/-! ## overrides.py -/

structure DetectedOverride where
  name : String
  factor : ℚ
  reason : String
  confidence : String
  effect : String
deriving DecidableEq

/-- The OVERRIDE_FACTORS table (overrides.py). -/
def OVERRIDE_FACTORS : String → ℚ := fun s =>
  if s = "long_weekend" then 150/100
  else if s = "festival" then 140/100
  else if s = "holiday" then 130/100
  else if s = "holiday_eve" then 115/100
  else if s = "rain_likely" then 85/100
  else if s = "heavy_rain_likely" then 70/100
  else if s = "heatwave_likely" then 90/100
  else 0

/-- Sublist-of-consecutive-characters test, used for Python's
`kw in holiday_name` substring check. -/
def charsContain (p : List Char) : List Char → Bool
  | [] => p.isEmpty
  | c :: rest => p.isPrefixOf (c :: rest) || charsContain p rest

def strContains (s kw : String) : Bool := charsContain kw.data s.data

/-- Python `str.lower()`: lower-case every character. -/
def lowerStr (s : String) : String := String.mk (s.data.map Char.toLower)

def FESTIVAL_KEYWORDS : List String :=
  ["diwali", "holi", "dussehra", "christmas", "pongal",
   "ganesh", "onam", "eid", "guru nanak"]

/-- Mirrors the `any(kw in holiday_name.lower() ...)` festival test. -/
def isFestivalName (name : String) : Bool :=
  FESTIVAL_KEYWORDS.any (fun kw => strContains (lowerStr name) kw)

/-- Weather probabilities for one month; only the three kinds the code
reads, with absent keys already folded to the `dict.get(kind, 0)`
default 0. -/
structure WeatherProbs where
  rain : ℚ
  heavy_rain : ℚ
  hot : ℚ
deriving DecidableEq

/-- The `weather_by_month` table: `none` for months absent from the
table (Python: `month_str in self.weather_by_month`). -/
def WeatherTable : Type := ℕ → Option WeatherProbs

/-- The weather table the engine runs with when demand_profiles.json is
absent (as in this repository): empty. -/
def noWeather : WeatherTable := fun _ => none

/-- Python `f"{p:.0%}"` percent formatting. -/
def fmtPct (p : ℚ) : String := toString (round (p * 100)) ++ "%"

/-- Product of the factors of the detected overrides (the
`combined *= o.factor` loop). -/
def overridesProduct (os : List DetectedOverride) : ℚ :=
  os.foldl (fun acc o => acc * o.factor) 1

/-- The saturation block at the end of `detect_overrides`: clamp the
product into [1/MAX_OVERRIDE_FACTOR, MAX_OVERRIDE_FACTOR] and report
whether clamping fired. -/
def combineOverrides (os : List DetectedOverride) : ℚ × Bool :=
  if MAX_OVERRIDE_FACTOR < overridesProduct os then
    (MAX_OVERRIDE_FACTOR, true)
  else if overridesProduct os < 1 / MAX_OVERRIDE_FACTOR then
    (1 / MAX_OVERRIDE_FACTOR, true)
  else (overridesProduct os, false)

/-- The overrides list built by `OverrideDetector.detect_overrides`
before combination. Note the holiday-eve rule is an `elif` of the
holiday rule in the source, so it can fire only on non-holidays. -/
def detectedList (W : WeatherTable) (n : ℕ) (day_type : String) :
    List DetectedOverride :=
  let month := monthOfDay n
  let os1 : List DetectedOverride :=
    if day_type == "long_weekend" then
      [⟨"Long Weekend", OVERRIDE_FACTORS "long_weekend",
        "Part of an extended weekend stretch (detected from calendar)",
        "high", "surge"⟩]
    else []
  let os2 : List DetectedOverride :=
    match holidayName n with
    | some hname =>
      if isFestivalName hname then
        [⟨"Festival: " ++ hname, OVERRIDE_FACTORS "festival",
          hname ++ " — major festival drives high rental demand",
          "high", "surge"⟩]
      else
        [⟨"Holiday: " ++ hname, OVERRIDE_FACTORS "holiday",
          hname ++ " — public holiday increases leisure rentals",
          "high", "surge"⟩]
    | none =>
      if day_type == "holiday_eve" then
        match holidayName (n + 1) with
        | some tname =>
          [⟨"Eve of " ++ tname, OVERRIDE_FACTORS "holiday_eve",
            "Day before " ++ tname ++ " — early pickup demand",
            "high", "surge"⟩]
        | none => []
      else []
  let os3 : List DetectedOverride :=
    match W month with
    | none => []
    | some wp =>
      let rain_prob := wp.rain + wp.heavy_rain
      let osRain :=
        if wp.heavy_rain > 15/100 then
          [⟨"Heavy Rain Likely", OVERRIDE_FACTORS "heavy_rain_likely",
            "Historical data: " ++ fmtPct wp.heavy_rain ++
              " of bookings in month " ++ toString month ++
              " had heavy rain",
            "medium", "discount"⟩]
        else if rain_prob > 25/100 then
          [⟨"Rain Likely", OVERRIDE_FACTORS "rain_likely",
            "Historical data: " ++ fmtPct rain_prob ++
              " of bookings in month " ++ toString month ++ " had rain",
            "medium", "discount"⟩]
        else []
      let osHot :=
        if wp.hot > 20/100 then
          [⟨"Heatwave Likely", OVERRIDE_FACTORS "heatwave_likely",
            "Historical data: " ++ fmtPct wp.hot ++
              " of bookings in month " ++ toString month ++
              " had heatwave conditions",
            "medium", "discount"⟩]
        else []
      osRain ++ osHot
  os1 ++ os2 ++ os3

/-- Mirrors `OverrideDetector.detect_overrides`: returns
(combined factor, overrides, was_capped). -/
def detect_overrides (W : WeatherTable) (n : ℕ) (day_type : String) :
    ℚ × List DetectedOverride × Bool :=
  let os := detectedList W n day_type
  let cb := combineOverrides os
  (cb.1, os, cb.2)

/-! ## price_engine.py -/

/-- Datetime at hour precision: day number plus hour of day. -/
structure DateTime where
  day : ℕ
  hour : ℕ
deriving DecidableEq

/-- Mirrors `rental_datetime < now` (at the hour precision of the
embedding). -/
def DateTime.lt (a b : DateTime) : Bool :=
  a.day < b.day || (a.day == b.day && a.hour < b.hour)

def pad2 (k : ℕ) : String :=
  if k < 10 then "0" ++ toString k else toString k

/-- Python `strftime("%Y-%m-%d")`. -/
def fmtDate (n : ℕ) : String :=
  let c := civilOfDay n
  toString c.1 ++ "-" ++ pad2 c.2.1 ++ "-" ++ pad2 c.2.2

def padZeros (k : ℕ) (s : String) : String :=
  if s.length < k then
    String.mk (List.replicate (k - s.length) (Char.ofNat 48)) ++ s
  else s

/-- Python `f"{x:.2f}"`-style fixed-point formatting (non-negative
arguments only, which is all the engine prints). -/
def fmtFixed (k : ℕ) (x : ℚ) : String :=
  let c := (round (x * 10 ^ k)).toNat
  toString (c / 10 ^ k) ++ "." ++ padZeros k (toString (c % 10 ^ k))

/-- Python `str(float)` for the multiples of 1/100 the engine prints
(for example 60.0 → "60.0", 0.7 → "0.7"). -/
def fmtPyFloat (x : ℚ) : String :=
  let c := (round (x * 100)).toNat
  if c % 100 == 0 then toString (c / 100) ++ ".0"
  else if c % 10 == 0 then toString (c / 100) ++ "." ++ toString (c % 100 / 10)
  else fmtFixed 2 x

/-- Integral rational printed as a Python int. -/
def fmtInt (x : ℚ) : String := toString x.num

/-- A single-quote character, written by code point. -/
def sq : String := String.singleton (Char.ofNat 39)

/-- Python `day_type.replace("_", " ").title()`. -/
def titleCase (s : String) : String :=
  String.intercalate " " ((s.splitOn "_").map String.capitalize)

def WEEKDAY_NAMES : List String :=
  ["Monday", "Tuesday", "Wednesday", "Thursday", "Friday", "Saturday",
   "Sunday"]

def MONTH_ABBRS : List String :=
  ["", "Jan", "Feb", "Mar", "Apr", "May", "Jun", "Jul", "Aug", "Sep",
   "Oct", "Nov", "Dec"]

/-- The `conf_badge` dict lookup in `_build_explanation`. -/
def confBadge (c : String) : String :=
  if c == "high" then "●" else if c == "medium" then "◐" else "○"

/-- First-match scan of the discount tiers (the `for threshold, discount
in DURATION_DISCOUNT_TIERS ... break` loop, default 1.0). -/
def scanTiers : List (ℕ × ℚ) → ℚ → ℚ
  | [], _ => 1
  | (t, disc) :: rest, dur =>
    if (t : ℚ) ≤ dur then disc else scanTiers rest dur

def durationDiscountOf (dur : ℚ) : ℚ := scanTiers DURATION_DISCOUNT_TIERS dur

/-- Step 2 of `calculate_price`: the surge multiplier derived from the
demand score. -/
def surgeMultiplierOf (P : Profiles) (n hour : ℕ) : ℚ :=
  MIN_MULTIPLIER +
    (estimate_demand P n hour).score * (MAX_MULTIPLIER - MIN_MULTIPLIER)

/-- Step 3 of `calculate_price`: the combined override factor for the
rental, using the day type from demand estimation. -/
def overrideFactorOf (P : Profiles) (W : WeatherTable) (n hour : ℕ) : ℚ :=
  (detect_overrides W n (estimate_demand P n hour).day_type).1

/-- Step 4 of `calculate_price`: the unclamped product. -/
def rawMultiplierOf (P : Profiles) (W : WeatherTable) (n hour : ℕ) : ℚ :=
  surgeMultiplierOf P n hour * overrideFactorOf P W n hour

/-- Step 4 of `calculate_price`: clamp into the global multiplier
bounds. -/
def finalMultiplierOf (P : Profiles) (W : WeatherTable) (n hour : ℕ) : ℚ :=
  max MIN_MULTIPLIER (min MAX_MULTIPLIER (rawMultiplierOf P W n hour))

/-- Step 6 of `calculate_price`: the unrounded effective hourly rate. -/
def effectiveRateOf (P : Profiles) (W : WeatherTable) (n hour : ℕ)
    (v : VehicleType) (dur : ℚ) : ℚ :=
  VEHICLE_BASE_RATES v * finalMultiplierOf P W n hour *
    durationDiscountOf dur

/-- The warnings accumulated by `calculate_price` (past-date note and
far-future confidence note); the only part of the result that reads
the current time `now`. -/
def warningsOf (now rental : DateTime) : List String :=
  let past :=
    if rental.lt now then
      ["📅 This date is in the past (" ++ fmtDate rental.day ++ " " ++
        pad2 rental.hour ++
        ":00). Price shown for historical reference only."]
    else []
  let days_ahead : ℤ := (rental.day : ℤ) - (now.day : ℤ)
  let conf :=
    if days_ahead > LOW_CONFIDENCE_DAYS then
      if isHoliday rental.day then
        ["✅ Booking is " ++ toString days_ahead ++ " days ahead but " ++
          ((holidayName rental.day).getD "") ++
          " is calendar-certain — high confidence pricing."]
      else if 5 ≤ weekday rental.day then
        ["📅 Booking is " ++ toString days_ahead ++ " days ahead (>" ++
          toString LOW_CONFIDENCE_DAYS ++
          " days). Weekend demand is predictable but seasonal factors may vary — medium confidence."]
      else
        ["⚠️ Booking is " ++ toString days_ahead ++ " days ahead (>" ++
          toString LOW_CONFIDENCE_DAYS ++
          " days). Demand prediction confidence is lower for distant weekdays — weather and local events are uncertain."]
    else []
  past ++ conf

/-- Mirrors `PriceEngine._build_explanation`. -/
def buildExplanation (v : VehicleType) (base_rate duration : ℚ)
    (demand : DemandResult) (surge override_factor : ℚ)
    (detected : List DetectedOverride) (capped : Bool)
    (final_mult duration_discount effective_hourly total : ℚ) :
    List String :=
  let s1 := ["🏍️ Vehicle: " ++ VEHICLE_DISPLAY_NAMES v ++
    " — Base rate: ₹" ++ fmtPyFloat base_rate ++ "/hr"]
  let s2 := ["📅 Day type: " ++ titleCase demand.day_type ++ " (" ++
    WEEKDAY_NAMES.getD demand.weekday "" ++ ") — score: " ++
    fmtFixed 2 demand.day_type_score]
  let s3 := ["🌤️ Season (" ++ MONTH_ABBRS.getD demand.month "" ++
    "): score " ++ fmtFixed 2 demand.season_score]
  let s4 := ["🕐 Time slot (" ++ pad2 demand.hour ++ ":00): score " ++
    fmtFixed 2 demand.time_slot_score]
  let s5 :=
    match demand.holiday_name with
    | some hname => if demand.is_holiday then ["🎉 Holiday: " ++ hname] else []
    | none => []
  let s6 := ["📊 Blended demand score: " ++ fmtFixed 2 demand.score ++
    " → " ++ demand.zone.emoji ++ " " ++ demand.zone.name ++ " zone"]
  let s7 := ["📈 Surge multiplier: " ++ fmtFixed 2 surge ++ "×"]
  let s8 :=
    if detected.isEmpty then
      ["🔍 No contextual overrides detected for this date"]
    else
      ["🔍 Auto-detected " ++ toString detected.length ++ " override(s):"] ++
      detected.map (fun o =>
        "  " ++ (if o.effect == "discount" then "↓" else "↑") ++ " " ++
        o.name ++ ": ×" ++ fmtFixed 2 o.factor ++ " [" ++
        confBadge o.confidence ++ " " ++ o.confidence ++ "] — " ++
        o.reason) ++
      (if capped then
        ["  ⚠️ Combined override capped at ×" ++ fmtFixed 2 override_factor]
      else [])
  let s9 := ["🔒 Final multiplier: " ++ fmtFixed 2 final_mult ++
    "× (bounds: " ++ fmtPyFloat MIN_MULTIPLIER ++ "–" ++
    fmtPyFloat MAX_MULTIPLIER ++ ")"]
  let s10 :=
    if duration_discount < 1 then
      ["⏱️ Duration discount (" ++ fmtInt duration ++ "hrs): " ++
        toString ((((1 : ℚ) - duration_discount) * 100).floor) ++ "% off"]
    else []
  let s11 := ["💰 Effective rate: ₹" ++ fmtFixed 2 effective_hourly ++
    "/hr × " ++ fmtInt duration ++ "hrs = ₹" ++ fmtFixed 2 total]
  s1 ++ s2 ++ s3 ++ s4 ++ s5 ++ s6 ++ s7 ++ s8 ++ s9 ++ s10 ++ s11

/-- The `demand_dict` embedded in `PriceResult`. -/
structure DemandDict where
  score : ℚ
  zone : String
  zone_color : String
  zone_emoji : String
  zone_description : String
  day_type : String
  day_type_score : ℚ
  season_score : ℚ
  time_slot_score : ℚ
  is_holiday : Bool
  holiday_name : Option String
deriving DecidableEq

def demandDictOf (dr : DemandResult) : DemandDict :=
  { score := dr.score
    zone := dr.zone.name
    zone_color := dr.zone.color
    zone_emoji := dr.zone.emoji
    zone_description := dr.zone.description
    day_type := dr.day_type
    day_type_score := dr.day_type_score
    season_score := dr.season_score
    time_slot_score := dr.time_slot_score
    is_holiday := dr.is_holiday
    holiday_name := dr.holiday_name }

structure PriceResult where
  final_price : ℚ
  hourly_rate : ℚ
  effective_hourly_rate : ℚ
  vehicle_type : String
  vehicle_name : String
  base_rate : ℚ
  duration_hours : ℚ
  rental_datetime : String
  demand : DemandDict
  surge_multiplier : ℚ
  override_factor : ℚ
  final_multiplier : ℚ
  duration_discount : ℚ
  overrides_detected : List DetectedOverride
  override_was_capped : Bool
  warnings : List String
  explanation : List String
deriving DecidableEq

def validVehicleValues : List String := VEHICLE_TYPES.map VehicleType.value

/-- The `ValueError` message for an unrecognized vehicle category; it
carries the offending value and the list of valid categories. -/
def invalidVehicleMsg (vt : String) : String :=
  "Invalid vehicle type " ++ sq ++ vt ++ sq ++ ". Valid types: [" ++
    String.intercalate ", " (validVehicleValues.map
      (fun s => sq ++ s ++ sq)) ++ "]"

/-- The `ValueError` message for a non-positive or non-integer
duration; it carries the offending value and the valid range. -/
def invalidDurationMsg (dur : ℚ) : String :=
  "Duration must be a positive integer (got " ++ toString dur ++
    "). Minimum rental: 1 hour."

/-- Mirrors `PriceEngine.calculate_price`. `P`/`W` are the loaded
profile store, `now` stands for `datetime.now()`, and a raised
`ValueError` is an `Except.error`. A duration is a Python positive
int exactly when the rational has denominator 1 and is at least 1. -/
def calculate_price (P : Profiles) (W : WeatherTable)
    (now rental : DateTime) (vehicle_type : String)
    (duration_hours : ℚ) : Except String PriceResult :=
  match parseVehicleType vehicle_type with
  | none => .error (invalidVehicleMsg vehicle_type)
  | some v_type =>
    if duration_hours.den ≠ 1 ∨ duration_hours < 1 then
      .error (invalidDurationMsg duration_hours)
    else
      let warnings := warningsOf now rental
      let demand_result := estimate_demand P rental.day rental.hour
      let surge_multiplier := surgeMultiplierOf P rental.day rental.hour
      let det := detect_overrides W rental.day demand_result.day_type
      let override_factor := det.1
      let detected_overrides := det.2.1
      let override_capped := det.2.2
      let final_multiplier := finalMultiplierOf P W rental.day rental.hour
      let duration_discount := durationDiscountOf duration_hours
      let base_rate := VEHICLE_BASE_RATES v_type
      let effective_hourly :=
        effectiveRateOf P W rental.day rental.hour v_type duration_hours
      let total_price := effective_hourly * duration_hours
      .ok
        { final_price := roundTo 2 total_price
          hourly_rate := base_rate
          effective_hourly_rate := roundTo 2 effective_hourly
          vehicle_type := v_type.value
          vehicle_name := VEHICLE_DISPLAY_NAMES v_type
          base_rate := base_rate
          duration_hours := duration_hours
          rental_datetime :=
            fmtDate rental.day ++ "T" ++ pad2 rental.hour ++ ":00:00"
          demand := demandDictOf demand_result
          surge_multiplier := roundTo 4 surge_multiplier
          override_factor := roundTo 4 override_factor
          final_multiplier := roundTo 4 final_multiplier
          duration_discount := duration_discount
          overrides_detected := detected_overrides
          override_was_capped := override_capped
          warnings := warnings
          explanation := buildExplanation v_type base_rate duration_hours
            demand_result surge_multiplier override_factor
            detected_overrides override_capped final_multiplier
            duration_discount effective_hourly total_price }

/-! ## Spec-side formulas (for the refinement claim)

These three definitions follow the wording of spec §4.5 steps 3 and 7,
to be compared against the engine embedded above. -/

/-- Spec §4.5 step 3: surgeMultiplier = MIN_MULTIPLIER + score ·
(MAX_MULTIPLIER − MIN_MULTIPLIER). -/
def spec_surgeMultiplier (score : ℚ) : ℚ :=
  MIN_MULTIPLIER + score * (MAX_MULTIPLIER - MIN_MULTIPLIER)

/-- Spec §4.5 step 7: effectiveHourlyRate = baseRate(vehicleType) ·
finalMultiplier · durationDiscount. -/
def spec_effectiveHourlyRate (baseRate finalMultiplier durationDiscount : ℚ) : ℚ :=
  baseRate * finalMultiplier * durationDiscount

/-- Spec §4.5 step 7: finalPrice = effectiveHourlyRate · durationHours. -/
def spec_finalPrice (effectiveHourlyRate durationHours : ℚ) : ℚ :=
  effectiveHourlyRate * durationHours

/-! ## Auxiliary definitions for the theorems -/

/-- A result with its warnings list blanked, to compare everything a
`PriceResult` carries except the warnings. -/
def eraseWarnings (r : PriceResult) : PriceResult := { r with warnings := [] }

/-- A legal profile store (all intensities within [0,1]) whose lookups
are all zero: models loaded data recording dead demand everywhere. -/
def zeroProfiles : Profiles := ⟨fun _ => 0, fun _ => 0, fun _ => 0⟩

/-- A plain June weekday used as a sample rental start. -/
def sampleRental : DateTime := ⟨dayOfCivil 2025 6 11, 9⟩

/-! ## General lemmas -/

theorem abs_roundTo_sub (k : ℕ) (x : ℚ) :
    |roundTo k x - x| ≤ 1 / (2 * 10 ^ k) := by
  have hp : (0:ℚ) < 10 ^ k := by positivity
  have h1 : roundTo k x - x =
      (((round (x * 10 ^ k) : ℤ) : ℚ) - x * 10 ^ k) / 10 ^ k := by
    field_simp [roundTo]
    ring
  have h2 := abs_sub_round (x * 10 ^ k)
  rw [abs_sub_comm] at h2
  rw [h1, abs_div, abs_of_pos hp, div_le_div_iff hp (by positivity)]
  nlinarith [abs_nonneg (((round (x * 10 ^ k) : ℤ) : ℚ) - x * 10 ^ k)]

theorem roundTo_mono (k : ℕ) {x y : ℚ} (h : x ≤ y) :
    roundTo k x ≤ roundTo k y := by
  have hp : (0:ℚ) < 10 ^ k := by positivity
  have hr : round (x * 10 ^ k) ≤ round (y * 10 ^ k) := by
    rw [round_eq, round_eq]
    exact Int.floor_mono (by nlinarith)
  unfold roundTo
  exact (div_le_div_right hp).mpr (by exact_mod_cast hr)

theorem clamp01_eq {x : ℚ} (h0 : 0 ≤ x) (h1 : x ≤ 1) :
    max 0 (min 1 x) = x := by
  rw [min_eq_right h1, max_eq_right h0]

theorem roundTo_min_mult : roundTo 4 MIN_MULTIPLIER = MIN_MULTIPLIER := by
  decide

theorem roundTo_max_mult : roundTo 4 MAX_MULTIPLIER = MAX_MULTIPLIER := by
  decide

theorem finalMultiplierOf_mem (P : Profiles) (W : WeatherTable)
    (n hour : ℕ) :
    MIN_MULTIPLIER ≤ finalMultiplierOf P W n hour ∧
    finalMultiplierOf P W n hour ≤ MAX_MULTIPLIER := by
  unfold finalMultiplierOf
  refine ⟨le_max_left _ _, max_le ?_ (min_le_left _ _)⟩
  norm_num [MIN_MULTIPLIER, MAX_MULTIPLIER]

theorem durationDiscountOf_cases (dur : ℚ) :
    durationDiscountOf dur = 1 ∨ durationDiscountOf dur = 90/100 ∨
    durationDiscountOf dur = 80/100 ∨ durationDiscountOf dur = 70/100 := by
  simp only [durationDiscountOf, DURATION_DISCOUNT_TIERS, scanTiers]
  split_ifs <;> norm_num

theorem fallbackDayType_mem (s : String) :
    0 ≤ fallbackDayType s ∧ fallbackDayType s ≤ 1 := by
  unfold fallbackDayType
  split_ifs <;> norm_num

theorem fallbackMonthly_mem (m : ℕ) :
    0 ≤ fallbackMonthly m ∧ fallbackMonthly m ≤ 1 := by
  simp only [fallbackMonthly]
  split <;> norm_num

theorem weekday_add_four {n : ℕ} (h : weekday n = 1) :
    weekday (n + 4) = 5 := by
  unfold weekday at *
  omega

theorem classify_day_of_saturday {n : ℕ} (h : weekday n = 5) :
    classify_day n = "long_weekend" ∨ classify_day n = "holiday" ∨
    classify_day n = "holiday_eve" ∨ classify_day n = "saturday" := by
  have hb : is_strong_bridge n = false := by
    simp [is_strong_bridge, h]
  have h5 : (weekday n == 5) = true := by simp [h]
  unfold classify_day
  rw [hb, h5]
  split_ifs <;> simp_all

theorem combineOverrides_spec (os : List DetectedOverride) :
    (combineOverrides os).1 =
      max (1 / MAX_OVERRIDE_FACTOR)
        (min MAX_OVERRIDE_FACTOR (overridesProduct os)) ∧
    ((combineOverrides os).2 = true ↔
      MAX_OVERRIDE_FACTOR < overridesProduct os ∨
      overridesProduct os < 1 / MAX_OVERRIDE_FACTOR) := by
  unfold combineOverrides
  split_ifs with h1 h2
  · refine ⟨?_, by simp [h1]⟩
    rw [min_eq_left h1.le, max_eq_right]
    norm_num [MAX_OVERRIDE_FACTOR]
  · refine ⟨?_, iff_of_true rfl (Or.inr h2)⟩
    rw [min_eq_right (le_of_not_lt h1), max_eq_left h2.le]
  · refine ⟨?_, iff_of_false (by simp) ?_⟩
    · rw [min_eq_right (le_of_not_lt h1), max_eq_right (le_of_not_lt h2)]
    · rintro (h | h)
      · exact h1 h
      · exact h2 h

theorem isPrefixOf_self_append (p u : List Char) :
    p.isPrefixOf (p ++ u) = true := by
  induction p with
  | nil => simp
  | cons c cs ih => simpa using ih

theorem charsContain_append_left (p t u : List Char)
    (h : charsContain p u = true) : charsContain p (t ++ u) = true := by
  induction t with
  | nil => simpa
  | cons x xs ih => simp [charsContain, ih]

theorem charsContain_of_middle (p t u : List Char) :
    charsContain p (t ++ (p ++ u)) = true := by
  induction t with
  | nil =>
    cases p with
    | nil => cases u <;> simp [charsContain]
    | cons c cs => simp [charsContain, isPrefixOf_self_append]
  | cons x xs ih =>
    simp [charsContain, ih]

/-! ## Claim theorems -/

/-- C1: for every valid input (recognized vehicle type, integer
duration ≥ 1) the price is composed exactly by the documented formulas:
surgeMultiplier = MIN_MULTIPLIER + score · (MAX_MULTIPLIER −
MIN_MULTIPLIER) with score the blended demand score, effectiveHourlyRate
= baseRate(vehicleType) · finalMultiplier · durationDiscount, and
finalPrice = effectiveHourlyRate · durationHours; reported price and
rate are rounded to 2 decimals. -/
theorem C1_price_composition (P : Profiles) (W : WeatherTable)
    (now rental : DateTime) (vt : String) (dur : ℚ) (v : VehicleType)
    (hv : parseVehicleType vt = some v) (hden : dur.den = 1)
    (hpos : 1 ≤ dur) :
    ∃ r, calculate_price P W now rental vt dur = .ok r ∧
      r.surge_multiplier = roundTo 4 (spec_surgeMultiplier
        (estimate_demand P rental.day rental.hour).score) ∧
      r.final_multiplier =
        roundTo 4 (finalMultiplierOf P W rental.day rental.hour) ∧
      r.effective_hourly_rate = roundTo 2 (spec_effectiveHourlyRate
        (VEHICLE_BASE_RATES v)
        (finalMultiplierOf P W rental.day rental.hour)
        (durationDiscountOf dur)) ∧
      r.final_price = roundTo 2 (spec_finalPrice
        (spec_effectiveHourlyRate (VEHICLE_BASE_RATES v)
          (finalMultiplierOf P W rental.day rental.hour)
          (durationDiscountOf dur)) dur) := by
  simp only [calculate_price, hv]
  rw [if_neg (by push_neg; exact ⟨hden, hpos⟩)]
  exact ⟨_, rfl, rfl, rfl, rfl, rfl⟩

/-- Witness for C1: a scooter rental on 2025-06-11 09:00 for 2 hours. -/
theorem C1_price_composition_witness :
    ∃ r, calculate_price fallbackProfiles noWeather ⟨0, 0⟩ sampleRental
        "scooter" 2 = .ok r ∧
      r.surge_multiplier = roundTo 4 (spec_surgeMultiplier
        (estimate_demand fallbackProfiles sampleRental.day
          sampleRental.hour).score) ∧
      r.final_multiplier = roundTo 4 (finalMultiplierOf fallbackProfiles
        noWeather sampleRental.day sampleRental.hour) ∧
      r.effective_hourly_rate = roundTo 2 (spec_effectiveHourlyRate
        (VEHICLE_BASE_RATES .scooter)
        (finalMultiplierOf fallbackProfiles noWeather sampleRental.day
          sampleRental.hour)
        (durationDiscountOf 2)) ∧
      r.final_price = roundTo 2 (spec_finalPrice
        (spec_effectiveHourlyRate (VEHICLE_BASE_RATES .scooter)
          (finalMultiplierOf fallbackProfiles noWeather sampleRental.day
            sampleRental.hour)
          (durationDiscountOf 2)) 2) :=
  C1_price_composition fallbackProfiles noWeather ⟨0, 0⟩ sampleRental
    "scooter" 2 VehicleType.scooter (by decide) (by decide) (by norm_num)

/-- C2: for every valid input the final multiplier lies within
[MIN_MULTIPLIER, MAX_MULTIPLIER]; the raw product surge · override can
leave this range (here at Diwali Monday 2025-10-20 09:00) but the
composed multiplier is clamped back into it. -/
theorem C2_multiplier_bound :
    (∀ (P : Profiles) (W : WeatherTable) (now rental : DateTime)
        (vt : String) (dur : ℚ) (v : VehicleType),
        parseVehicleType vt = some v → dur.den = 1 → 1 ≤ dur →
        ∃ r, calculate_price P W now rental vt dur = .ok r ∧
          MIN_MULTIPLIER ≤ r.final_multiplier ∧
          r.final_multiplier ≤ MAX_MULTIPLIER) ∧
    MAX_MULTIPLIER <
      rawMultiplierOf fallbackProfiles noWeather (dayOfCivil 2025 10 20) 9 ∧
    finalMultiplierOf fallbackProfiles noWeather (dayOfCivil 2025 10 20) 9 =
      MAX_MULTIPLIER := by
  refine ⟨?_, by decide, by decide⟩
  intro P W now rental vt dur v hv hden hpos
  simp only [calculate_price, hv]
  rw [if_neg (by push_neg; exact ⟨hden, hpos⟩)]
  refine ⟨_, rfl, ?_, ?_⟩
  · show MIN_MULTIPLIER ≤
      roundTo 4 (finalMultiplierOf P W rental.day rental.hour)
    have h := roundTo_mono 4 (finalMultiplierOf_mem P W rental.day rental.hour).1
    rwa [roundTo_min_mult] at h
  · show roundTo 4 (finalMultiplierOf P W rental.day rental.hour) ≤
      MAX_MULTIPLIER
    have h := roundTo_mono 4 (finalMultiplierOf_mem P W rental.day rental.hour).2
    rwa [roundTo_max_mult] at h

/-- Witness for C2: the standard-bike rental at the 2025-06-11 sample
datetime for 8 hours. -/
theorem C2_multiplier_bound_witness :
    ∃ r, calculate_price fallbackProfiles noWeather ⟨0, 0⟩ sampleRental
        "standard_bike" 8 = .ok r ∧
      MIN_MULTIPLIER ≤ r.final_multiplier ∧
      r.final_multiplier ≤ MAX_MULTIPLIER :=
  C2_multiplier_bound.1 fallbackProfiles noWeather ⟨0, 0⟩ sampleRental
    "standard_bike" 8 VehicleType.standard_bike (by decide) (by decide)
    (by norm_num)

/-- C3: detect_overrides returns the product of all fired override
factors saturated into [1/MAX_OVERRIDE_FACTOR, MAX_OVERRIDE_FACTOR] =
[0.5, 2.0], with wasCapped exactly when the unclamped product lies
outside that interval; fired factors {1.50, 1.40, 1.30} combine to
exactly 2.0 with wasCapped = true. -/
theorem C3_override_saturation :
    (∀ (W : WeatherTable) (n : ℕ) (day_type : String),
      (detect_overrides W n day_type).1 =
        max (1 / MAX_OVERRIDE_FACTOR) (min MAX_OVERRIDE_FACTOR
          (overridesProduct (detect_overrides W n day_type).2.1)) ∧
      ((detect_overrides W n day_type).2.2 = true ↔
        MAX_OVERRIDE_FACTOR <
          overridesProduct (detect_overrides W n day_type).2.1 ∨
        overridesProduct (detect_overrides W n day_type).2.1 <
          1 / MAX_OVERRIDE_FACTOR)) ∧
    (∀ o1 o2 o3 : DetectedOverride, o1.factor = 150/100 →
      o2.factor = 140/100 → o3.factor = 130/100 →
      combineOverrides [o1, o2, o3] = (MAX_OVERRIDE_FACTOR, true)) := by
  constructor
  · intro W n day_type
    exact ⟨(combineOverrides_spec (detectedList W n day_type)).1,
           (combineOverrides_spec (detectedList W n day_type)).2⟩
  · intro o1 o2 o3 h1 h2 h3
    have hp : overridesProduct [o1, o2, o3] = 273/100 := by
      simp [overridesProduct, h1, h2, h3]
      norm_num
    unfold combineOverrides
    rw [hp]
    norm_num [MAX_OVERRIDE_FACTOR]

/-- Witness for C3: the long-weekend, festival and holiday factors
combine to the saturated factor 2.0 with the capped flag set. -/
theorem C3_override_saturation_witness :
    combineOverrides
      [⟨"Long Weekend", 150/100, "", "high", "surge"⟩,
       ⟨"Festival: Diwali", 140/100, "", "high", "surge"⟩,
       ⟨"Holiday: Republic Day", 130/100, "", "high", "surge"⟩] =
      (MAX_OVERRIDE_FACTOR, true) :=
  C3_override_saturation.2
    ⟨"Long Weekend", 150/100, "", "high", "surge"⟩
    ⟨"Festival: Diwali", 140/100, "", "high", "surge"⟩
    ⟨"Holiday: Republic Day", 130/100, "", "high", "surge"⟩
    rfl rfl rfl

/-- C4: the duration discount is chosen by scanning the tiers
longest-threshold-first, first match winning: ≥24h → 0.70, ≥8h → 0.80,
≥4h → 0.90, below 4h → 1.0; in particular 2h → 1.0, 4h → 0.90,
8h → 0.80, 24h → 0.70, 48h → 0.70. -/
theorem C4_duration_tiers :
    (∀ dur : ℚ, 1 ≤ dur →
      (24 ≤ dur → durationDiscountOf dur = 70/100) ∧
      (8 ≤ dur → dur < 24 → durationDiscountOf dur = 80/100) ∧
      (4 ≤ dur → dur < 8 → durationDiscountOf dur = 90/100) ∧
      (dur < 4 → durationDiscountOf dur = 1)) ∧
    durationDiscountOf 2 = 1 ∧ durationDiscountOf 4 = 90/100 ∧
    durationDiscountOf 8 = 80/100 ∧ durationDiscountOf 24 = 70/100 ∧
    durationDiscountOf 48 = 70/100 := by
  refine ⟨?_, by decide, by decide, by decide, by decide, by decide⟩
  intro dur _
  simp only [durationDiscountOf, DURATION_DISCOUNT_TIERS, scanTiers]
  push_cast
  refine ⟨fun h => ?_, fun h8 h24 => ?_, fun h4 h8 => ?_, fun h4 => ?_⟩ <;>
    split_ifs <;> first | rfl | linarith

/-- Witness for C4: a 30-hour rental falls in the 24-hour tier. -/
theorem C4_duration_tiers_witness : durationDiscountOf 30 = 70/100 :=
  (C4_duration_tiers.1 30 (by norm_num)).1 (by norm_num)

/-- C6: zone classification uses fixed lower-bound-inclusive
thresholds [0,0.15) → Dead, [0.15,0.40) → Low, [0.40,0.60) → Normal,
[0.60,0.80) → High, [0.80,1.0] → Surge, with the stated boundary
values. -/
theorem C6_zone_thresholds :
    (∀ s : ℚ,
      (0 ≤ s → s < 15/100 → classify_demand_zone s = deadZone) ∧
      (15/100 ≤ s → s < 40/100 → classify_demand_zone s = lowZone) ∧
      (40/100 ≤ s → s < 60/100 → classify_demand_zone s = normalZone) ∧
      (60/100 ≤ s → s < 80/100 → classify_demand_zone s = highZone) ∧
      (80/100 ≤ s → s ≤ 1 → classify_demand_zone s = surgeZone)) ∧
    classify_demand_zone 0 = deadZone ∧
    classify_demand_zone (15/100) = lowZone ∧
    classify_demand_zone (40/100) = normalZone ∧
    classify_demand_zone (60/100) = highZone ∧
    classify_demand_zone (80/100) = surgeZone ∧
    classify_demand_zone 1 = surgeZone := by
  refine ⟨?_, by decide, by decide, by decide, by decide, by decide,
    by decide⟩
  intro s
  unfold classify_demand_zone
  refine ⟨fun h0 h1 => ?_, fun h0 h1 => ?_, fun h0 h1 => ?_,
    fun h0 h1 => ?_, fun h0 h1 => ?_⟩ <;>
    split_ifs <;> first | rfl | linarith

/-- Witness for C6: the score 0.5 lands in the Normal zone. -/
theorem C6_zone_thresholds_witness :
    classify_demand_zone (50/100) = normalZone :=
  ((C6_zone_thresholds.1 (50/100)).2.2.1 (by norm_num) (by norm_num))

/-- C5: for every holiday in the calendar that falls on a Monday, the
day classifier returns long_weekend for the Saturday two days before,
the Sunday one day before, and the Monday itself; long_weekend heads
the priority chain, so such a Saturday is never classified as a plain
saturday. -/
theorem C5_monday_long_weekend :
    ∀ p ∈ INDIAN_HOLIDAYS, weekday p.1 = 0 →
      classify_day (p.1 - 2) = "long_weekend" ∧
      classify_day (p.1 - 1) = "long_weekend" ∧
      classify_day p.1 = "long_weekend" ∧
      classify_day (p.1 - 2) ≠ "saturday" := by decide

/-- Witness for C5: Diwali 2025-10-20 falls on a Monday, and the
surrounding Saturday, Sunday and Monday all classify long_weekend. -/
theorem C5_monday_long_weekend_witness :
    classify_day (dayOfCivil 2025 10 20 - 2) = "long_weekend" ∧
    classify_day (dayOfCivil 2025 10 20 - 1) = "long_weekend" ∧
    classify_day (dayOfCivil 2025 10 20) = "long_weekend" ∧
    classify_day (dayOfCivil 2025 10 20 - 2) ≠ "saturday" :=
  C5_monday_long_weekend (dayOfCivil 2025 10 20, "Diwali") (by decide)
    (by decide)

/-- C7: calculate_price fails exactly when the vehicle type is
unrecognized or the duration is not a positive integer; every valid
input yields a PriceResult, and the error messages carry the offending
value together with the valid set or range. -/
theorem C7_input_validation (P : Profiles) (W : WeatherTable)
    (now rental : DateTime) (vt : String) (dur : ℚ) :
    ((∃ e, calculate_price P W now rental vt dur = .error e) ↔
      parseVehicleType vt = none ∨ dur.den ≠ 1 ∨ dur < 1) ∧
    (parseVehicleType vt = none →
      calculate_price P W now rental vt dur =
        .error (invalidVehicleMsg vt)) ∧
    (∀ v, parseVehicleType vt = some v → dur.den ≠ 1 ∨ dur < 1 →
      calculate_price P W now rental vt dur =
        .error (invalidDurationMsg dur)) ∧
    (∀ v, parseVehicleType vt = some v → dur.den = 1 → 1 ≤ dur →
      ∃ r, calculate_price P W now rental vt dur = .ok r) ∧
    strContains (invalidVehicleMsg vt) vt = true ∧
    strContains (invalidDurationMsg dur) (toString dur) = true ∧
    (∀ s ∈ validVehicleValues, strContains (invalidVehicleMsg vt) s = true) := by
  have herr1 : parseVehicleType vt = none →
      calculate_price P W now rental vt dur =
        .error (invalidVehicleMsg vt) := by
    intro h
    simp only [calculate_price, h]
  have herr2 : ∀ v, parseVehicleType vt = some v →
      dur.den ≠ 1 ∨ dur < 1 →
      calculate_price P W now rental vt dur =
        .error (invalidDurationMsg dur) := by
    intro v hv hbad
    simp only [calculate_price, hv]
    rw [if_pos hbad]
  have hok : ∀ v, parseVehicleType vt = some v → dur.den = 1 → 1 ≤ dur →
      ∃ r, calculate_price P W now rental vt dur = .ok r := by
    intro v hv hden hpos
    simp only [calculate_price, hv]
    rw [if_neg (by push_neg; exact ⟨hden, hpos⟩)]
    exact ⟨_, rfl⟩
  refine ⟨⟨?_, ?_⟩, herr1, herr2, hok, ?_, ?_, ?_⟩
  · rintro ⟨e, he⟩
    cases hp : parseVehicleType vt with
    | none => exact Or.inl rfl
    | some v =>
      by_cases hd : dur.den ≠ 1 ∨ dur < 1
      · exact Or.inr hd
      · push_neg at hd
        obtain ⟨r, hr⟩ := hok v hp hd.1 hd.2
        rw [he] at hr
        exact absurd hr (by simp)
  · rintro (h | h)
    · exact ⟨_, herr1 h⟩
    · cases hp : parseVehicleType vt with
      | none => exact ⟨_, herr1 hp⟩
      | some v => exact ⟨_, herr2 v hp h⟩
  · show charsContain vt.data (invalidVehicleMsg vt).data = true
    have h : (invalidVehicleMsg vt).data =
        ("Invalid vehicle type " ++ sq).data ++
          (vt.data ++ (sq ++ ". Valid types: [" ++
            String.intercalate ", " (validVehicleValues.map
              (fun s => sq ++ s ++ sq)) ++ "]").data) := by
      simp only [invalidVehicleMsg, String.data_append, List.append_assoc]
    rw [h]
    exact charsContain_of_middle _ _ _
  · show charsContain (toString dur).data (invalidDurationMsg dur).data = true
    have h : (invalidDurationMsg dur).data =
        "Duration must be a positive integer (got ".data ++
          ((toString dur).data ++ "). Minimum rental: 1 hour.".data) := by
      simp only [invalidDurationMsg, String.data_append, List.append_assoc]
    rw [h]
    exact charsContain_of_middle _ _ _
  · intro s hs
    show charsContain s.data (invalidVehicleMsg vt).data = true
    have h : (invalidVehicleMsg vt).data =
        ("Invalid vehicle type " ++ sq ++ vt ++ sq).data ++
          (". Valid types: [" ++ String.intercalate ", "
            (validVehicleValues.map (fun x => sq ++ x ++ sq)) ++
            "]").data := by
      simp only [invalidVehicleMsg, String.data_append, List.append_assoc]
    rw [h]
    apply charsContain_append_left
    have hvals : validVehicleValues =
        ["scooter", "standard_bike", "premium_bike", "super_premium"] := rfl
    rw [hvals] at hs
    fin_cases hs <;> decide

/-- Witness for C7: an unknown vehicle type is rejected with the
documented message. -/
theorem C7_input_validation_witness :
    calculate_price fallbackProfiles noWeather ⟨0, 0⟩ sampleRental
      "jetpack" 2 = .error (invalidVehicleMsg "jetpack") :=
  (C7_input_validation fallbackProfiles noWeather ⟨0, 0⟩ sampleRental
    "jetpack" 2).2.1 (by decide)

/-- C8 counterexample: the claim that identical inputs always produce
identical results fails because the warnings read datetime.now(): the
same rental (2025-06-11 09:00, scooter, 2h) priced when "now" is
2025-01-01 carries a low-confidence far-future warning, but priced when
"now" is 2025-06-01 carries no warning. -/
theorem C8_counterexample :
    calculate_price fallbackProfiles noWeather ⟨dayOfCivil 2025 1 1, 0⟩
      ⟨dayOfCivil 2025 6 11, 9⟩ "scooter" 2 ≠
    calculate_price fallbackProfiles noWeather ⟨dayOfCivil 2025 6 1, 0⟩
      ⟨dayOfCivil 2025 6 11, 9⟩ "scooter" 2 := by
  intro h
  exact absurd
    (congrArg (fun x => (Except.map (fun r => r.warnings) x).toOption) h)
    (by decide)

/-- C8 amended: with the wall-clock time held fixed the function is
pure, and across different wall-clock times every field of the result
except the warnings list coincides — the warnings (past-date and
far-future confidence notes) are the only part that reads
datetime.now(). -/
theorem C8_idempotence_modulo_warnings (P : Profiles) (W : WeatherTable)
    (now1 now2 rental : DateTime) (vt : String) (dur : ℚ) :
    (calculate_price P W now1 rental vt dur).map eraseWarnings =
    (calculate_price P W now2 rental vt dur).map eraseWarnings := by
  unfold calculate_price
  cases parseVehicleType vt with
  | none => rfl
  | some v => split_ifs <;> rfl

/-- C9 counterexample: in the week of Monday 2025-10-20, the Tuesday
2025-10-21 is itself a holiday (Diwali Day 2) and classifies as
long_weekend, so its 09:00 demand score 0.964 strictly exceeds the
same-week, same-month Saturday 2025-10-25 score 0.874 — refuting the
claim that the Saturday score always strictly exceeds the Tuesday
score. -/
theorem C9_counterexample :
    weekday (dayOfCivil 2025 10 21) = 1 ∧
    dayOfCivil 2025 10 25 = dayOfCivil 2025 10 21 + 4 ∧
    monthOfDay (dayOfCivil 2025 10 25) =
      monthOfDay (dayOfCivil 2025 10 21) ∧
    (estimate_demand fallbackProfiles (dayOfCivil 2025 10 21) 9).score =
      964/1000 ∧
    (estimate_demand fallbackProfiles (dayOfCivil 2025 10 25) 9).score =
      874/1000 ∧
    ¬ (estimate_demand fallbackProfiles (dayOfCivil 2025 10 21) 9).score <
        (estimate_demand fallbackProfiles (dayOfCivil 2025 10 25) 9).score :=
  ⟨by decide, by decide, by decide, by decide, by decide, by decide⟩

/-- C9 amended: the Saturday 09:00 demand score strictly exceeds the
same-week, same-month Tuesday 09:00 score under the fallback profiles,
provided neither day gets a holiday-driven classification that inverts
the comparison: the Tuesday classifies regular_weekday or exam_weekday
(not long_weekend or holiday_eve) and the Saturday is not a
holiday_eve. -/
theorem C9_weekend_effect_amended (n : ℕ)
    (hw : weekday n = 1)
    (hm : monthOfDay (n + 4) = monthOfDay n)
    (htue : classify_day n = "regular_weekday" ∨
      classify_day n = "exam_weekday")
    (hsat : classify_day (n + 4) ≠ "holiday_eve") :
    (estimate_demand fallbackProfiles n 9).score <
      (estimate_demand fallbackProfiles (n + 4) 9).score := by
  have hw5 : weekday (n + 4) = 5 := weekday_add_four hw
  have hta : fallbackDayType (classify_day n) ≤ 35/100 := by
    rcases htue with h | h <;> rw [h] <;> decide
  have hta0 : 0 ≤ fallbackDayType (classify_day n) :=
    (fallbackDayType_mem _).1
  have htb : 80/100 ≤ fallbackDayType (classify_day (n + 4)) := by
    rcases classify_day_of_saturday hw5 with h | h | h | h
    · rw [h]; decide
    · rw [h]; decide
    · exact absurd h hsat
    · rw [h]; decide
  have htb1 : fallbackDayType (classify_day (n + 4)) ≤ 1 :=
    (fallbackDayType_mem _).2
  have hmo := fallbackMonthly_mem (monthOfDay n)
  have hmo4 := fallbackMonthly_mem (monthOfDay (n + 4))
  have hbt : blendedScore fallbackProfiles n 9 =
      45/100 * fallbackDayType (classify_day n) +
        30/100 * fallbackMonthly (monthOfDay n) + 25/100 := by
    show max 0 (min 1 (45/100 * fallbackDayType (classify_day n) +
      30/100 * fallbackMonthly (monthOfDay n) + 25/100 * 1)) = _
    rw [mul_one]
    exact clamp01_eq (by linarith [hta0, hmo.1]) (by linarith [hta, hmo.2])
  have hbs : blendedScore fallbackProfiles (n + 4) 9 =
      45/100 * fallbackDayType (classify_day (n + 4)) +
        30/100 * fallbackMonthly (monthOfDay (n + 4)) + 25/100 := by
    show max 0 (min 1 (45/100 * fallbackDayType (classify_day (n + 4)) +
      30/100 * fallbackMonthly (monthOfDay (n + 4)) + 25/100 * 1)) = _
    rw [mul_one]
    exact clamp01_eq (by linarith [htb, hmo4.1]) (by linarith [htb1, hmo4.2])
  have hdiff : blendedScore fallbackProfiles n 9 + 2025/10000 ≤
      blendedScore fallbackProfiles (n + 4) 9 := by
    rw [hbt, hbs, hm]
    linarith [hta, htb]
  have h1 := abs_roundTo_sub 4 (blendedScore fallbackProfiles n 9)
  have h2 := abs_roundTo_sub 4 (blendedScore fallbackProfiles (n + 4) 9)
  rw [abs_le] at h1 h2
  have e1 : (1:ℚ) / (2 * 10 ^ 4) = 1/20000 := by norm_num
  rw [e1] at h1 h2
  show roundTo 4 (blendedScore fallbackProfiles n 9) <
    roundTo 4 (blendedScore fallbackProfiles (n + 4) 9)
  linarith [h1.1, h1.2, h2.1, h2.2]

/-- Witness for C9 amended: Tuesday 2025-06-10 (a plain weekday) against
Saturday 2025-06-14 of the same June week. -/
theorem C9_weekend_effect_amended_witness :
    (estimate_demand fallbackProfiles (dayOfCivil 2025 6 10) 9).score <
      (estimate_demand fallbackProfiles (dayOfCivil 2025 6 10 + 4) 9).score :=
  C9_weekend_effect_amended (dayOfCivil 2025 6 10) (by decide) (by decide)
    (Or.inl (by decide)) (by decide)

/-- C10: for every valid input the unrounded effective hourly rate lies
in [0.49 · baseRate, 2 · baseRate], hence never exceeds the per-vehicle
price ceiling (2.5 · baseRate); but with a legal all-zero profile store
a dead-demand 24-hour scooter rental prices at ₹29.40/hr, below the ₹40
per-vehicle floor, which the pipeline never applies as a runtime
clamp. -/
theorem C10_rate_envelope :
    (∀ (P : Profiles) (W : WeatherTable) (n hour : ℕ) (v : VehicleType)
        (dur : ℚ), 1 ≤ dur →
      49/100 * VEHICLE_BASE_RATES v ≤ effectiveRateOf P W n hour v dur ∧
      effectiveRateOf P W n hour v dur ≤ 2 * VEHICLE_BASE_RATES v ∧
      effectiveRateOf P W n hour v dur ≤ PRICE_CEILING_RATES v) ∧
    effectiveRateOf zeroProfiles noWeather (dayOfCivil 2025 7 9) 3
        VehicleType.scooter 24 <
      PRICE_FLOOR_RATES VehicleType.scooter ∧
    ((calculate_price zeroProfiles noWeather ⟨dayOfCivil 2025 7 1, 0⟩
        ⟨dayOfCivil 2025 7 9, 3⟩ "scooter" 24).toOption.map
        (fun r => r.effective_hourly_rate) = some (147/5)) ∧
    (147:ℚ)/5 < PRICE_FLOOR_RATES VehicleType.scooter := by
  refine ⟨?_, by decide, by decide, by decide⟩
  intro P W n hour v dur _
  have hfm := finalMultiplierOf_mem P W n hour
  have hfm1 : 70/100 ≤ finalMultiplierOf P W n hour := hfm.1
  have hfm2 : finalMultiplierOf P W n hour ≤ 2 := hfm.2
  have hfm0 : 0 ≤ finalMultiplierOf P W n hour := by linarith
  have hd1 : 70/100 ≤ durationDiscountOf dur ∧
      durationDiscountOf dur ≤ 1 := by
    rcases durationDiscountOf_cases dur with h | h | h | h <;> rw [h] <;>
      norm_num
  have hbase : 0 < VEHICLE_BASE_RATES v := by
    cases v <;> norm_num [VEHICLE_BASE_RATES]
  refine ⟨?_, ?_, ?_⟩
  · have s1 : VEHICLE_BASE_RATES v * (70/100) ≤
        VEHICLE_BASE_RATES v * finalMultiplierOf P W n hour :=
      mul_le_mul_of_nonneg_left hfm1 hbase.le
    have s2 : VEHICLE_BASE_RATES v * (70/100) * (70/100) ≤
        VEHICLE_BASE_RATES v * finalMultiplierOf P W n hour *
          durationDiscountOf dur :=
      mul_le_mul s1 hd1.1 (by norm_num)
        (mul_nonneg hbase.le hfm0)
    show 49/100 * VEHICLE_BASE_RATES v ≤
      VEHICLE_BASE_RATES v * finalMultiplierOf P W n hour *
        durationDiscountOf dur
    nlinarith [s2]
  · have s2 : VEHICLE_BASE_RATES v * finalMultiplierOf P W n hour *
        durationDiscountOf dur ≤
        VEHICLE_BASE_RATES v * finalMultiplierOf P W n hour * 1 :=
      mul_le_mul_of_nonneg_left hd1.2 (mul_nonneg hbase.le hfm0)
    have s3 : VEHICLE_BASE_RATES v * finalMultiplierOf P W n hour ≤
        VEHICLE_BASE_RATES v * 2 :=
      mul_le_mul_of_nonneg_left hfm2 hbase.le
    show VEHICLE_BASE_RATES v * finalMultiplierOf P W n hour *
      durationDiscountOf dur ≤ 2 * VEHICLE_BASE_RATES v
    nlinarith [s2, s3]
  · have hc : 2 * VEHICLE_BASE_RATES v ≤ PRICE_CEILING_RATES v := by
      cases v <;> norm_num [VEHICLE_BASE_RATES, PRICE_CEILING_RATES]
    have s2 : VEHICLE_BASE_RATES v * finalMultiplierOf P W n hour *
        durationDiscountOf dur ≤
        VEHICLE_BASE_RATES v * finalMultiplierOf P W n hour * 1 :=
      mul_le_mul_of_nonneg_left hd1.2 (mul_nonneg hbase.le hfm0)
    have s3 : VEHICLE_BASE_RATES v * finalMultiplierOf P W n hour ≤
        VEHICLE_BASE_RATES v * 2 :=
      mul_le_mul_of_nonneg_left hfm2 hbase.le
    show VEHICLE_BASE_RATES v * finalMultiplierOf P W n hour *
      durationDiscountOf dur ≤ PRICE_CEILING_RATES v
    nlinarith [s2, s3, hc]

/-- Witness for C10: the scooter rate envelope at the June sample
datetime for an 8-hour rental. -/
theorem C10_rate_envelope_witness :
    49/100 * VEHICLE_BASE_RATES VehicleType.scooter ≤
      effectiveRateOf fallbackProfiles noWeather (dayOfCivil 2025 6 11) 9
        VehicleType.scooter 8 ∧
    effectiveRateOf fallbackProfiles noWeather (dayOfCivil 2025 6 11) 9
        VehicleType.scooter 8 ≤
      2 * VEHICLE_BASE_RATES VehicleType.scooter ∧
    effectiveRateOf fallbackProfiles noWeather (dayOfCivil 2025 6 11) 9
        VehicleType.scooter 8 ≤ PRICE_CEILING_RATES VehicleType.scooter :=
  C10_rate_envelope.1 fallbackProfiles noWeather (dayOfCivil 2025 6 11) 9
    VehicleType.scooter 8 (by norm_num)

end PriceEngine
